import Mathlib

/-!
Shallow embedding of the battle engine of Kope-Quest.

`src/game_logic.py` — combat math (`calculate_damage`,
`get_element_effectiveness`), the battle-action resolver
(`execute_battle_action`) and the NPC decision policy
(`choose_npc_action`).

`src/main.py` — the PvP action handler (`handle_pvp_action`), the PvP
settlement routine (`handle_pvp_battle_end`) and the in-memory registry
of active battles.

Modelling conventions:
* Python ints are `Int`; the float arithmetic of the damage formula is
  modelled over `ℚ` (all constants — 0.5, 1.5, 0.8, 1.2 — are exact
  rationals in the source).
* `random.uniform(0.8, 1.2)` and `check_critical_hit` are ambient
  randomness; their outcomes are passed in as explicit parameters
  (`variance : ℚ`, `is_critical : Bool`), as the spec requires for
  testability.
* Python `int(x)` truncates toward zero; the source only applies it
  inside `max(1, int(damage))`, and `max 1 ∘ truncate = max 1 ∘ floor`
  on ℚ (they differ only on negatives, which `max 1` absorbs), so the
  embedding uses `Rat.floor`.
* Python `//` is floor division; it is modelled with `Int.fdiv`.
* The `try/except` wrapper of `execute_battle_action` is modelled by a
  `fault : Bool` parameter: `fault = true` plays the role of an internal
  exception raised during resolution (the realistic throw sites —
  `check_critical_hit` / `calculate_damage` — run before any mutation).
* `Player` and `NPC` are merged into one `Combatant` record; the source
  distinguishes them by `hasattr(actor, 'user_id')`, modelled by the
  `isPlayer` flag, and uses `actor.name if hasattr(actor, 'name') else
  actor.username` in log lines, modelled by `displayName`.
-/

/-- A combatant: the fields shared by `Player` and `NPC` in
`src/game_logic.py`, plus the tag the source probes via
`hasattr(actor, 'user_id')`. -/
structure Combatant where
  isPlayer : Bool
  userId : Int
  displayName : String
  element : String
  level : Int
  hp : Int
  max_hp : Int
  stamina : Int
  max_stamina : Int
  attack : Int
  defense : Int
  agility : Int
  element_power : Int
deriving Repr, DecidableEq

/-- `Player.is_alive` / `NPC.is_alive`: `hp > 0`. -/
def Combatant.is_alive (c : Combatant) : Bool := 0 < c.hp

/-- `can_use_element_skill`: `stamina >= 15`. -/
def Combatant.can_use_element_skill (c : Combatant) : Bool := 15 ≤ c.stamina

/-- `can_heal`: `stamina >= 10 and hp < max_hp`. -/
def Combatant.can_heal (c : Combatant) : Bool := 10 ≤ c.stamina && c.hp < c.max_hp

/-- The element effectiveness matrix from `GameLogic.__init__`
(1.5 = 3/2, 0.8 = 4/5, 1.2 = 6/5). -/
def element_effectiveness : List (String × List (String × ℚ)) :=
  [("Fire", [("Ice", 3/2), ("Earth", 4/5), ("Water", 4/5)]),
   ("Ice", [("Water", 3/2), ("Fire", 4/5), ("Lightning", 4/5)]),
   ("Lightning", [("Water", 3/2), ("Ice", 4/5), ("Earth", 3/2)]),
   ("Water", [("Fire", 3/2), ("Lightning", 4/5), ("Wind", 4/5)]),
   ("Earth", [("Lightning", 3/2), ("Wind", 3/2), ("Fire", 4/5)]),
   ("Wind", [("Earth", 4/5), ("Shadow", 3/2), ("Water", 3/2)]),
   ("Shadow", [("Light", 3/2), ("Wind", 4/5), ("Fire", 6/5)]),
   ("Light", [("Shadow", 3/2), ("Fire", 6/5), ("Ice", 6/5)])]

/-- `GameLogic.get_element_effectiveness`: row lookup by attacker element,
then `.get(defender_element, 1.0)`, with 1.0 when the attacker element is
absent from the matrix. -/
def get_element_effectiveness (attacker_element defender_element : String) : ℚ :=
  match List.lookup attacker_element element_effectiveness with
  | some row => (List.lookup defender_element row).getD 1
  | none => 1

/-- The multiplier declared in the matrix for a pair of elements, if any
(the attacker row's entry for the defender element). -/
def declared_multiplier (attacker_element defender_element : String) : Option ℚ :=
  (List.lookup attacker_element element_effectiveness).bind
    (fun row => List.lookup defender_element row)

/-- `GameLogic.calculate_damage`.  Unrecognized actions return 0 before any
combatant field is read; otherwise `max(1, base - defense*0.5)` is scaled by
effectiveness (element action only), the variance draw and the critical
multiplier, and the result is `max(1, int(damage))`. -/
def calculate_damage (attacker defender : Combatant) (action : String)
    (is_critical : Bool) (variance : ℚ) : Int :=
  if action ≠ "attack" ∧ action ≠ "element" then 0
  else
    let base_damage : ℚ :=
      if action = "attack" then (attacker.attack : ℚ) else (attacker.element_power : ℚ)
    let defense_reduction : ℚ := (defender.defense : ℚ) * (1/2)
    let damage1 : ℚ := max 1 (base_damage - defense_reduction)
    let damage2 : ℚ :=
      if action = "element" then
        damage1 * get_element_effectiveness attacker.element defender.element
      else damage1
    let damage3 : ℚ := damage2 * variance
    let damage4 : ℚ := if is_critical then damage3 * (3/2) else damage3
    max 1 ⌊damage4⌋

/-- The result dictionary returned by `execute_battle_action`:
keys `log`, `winner`, `damage_dealt`. -/
structure BattleResult where
  log : String
  winner : Option String
  damage_dealt : Int
deriving Repr, DecidableEq

/-- The action dispatch of `execute_battle_action` (the `if action == ...`
chain inside the `try` block): returns the updated actor, the updated
target and the action log line. -/
def apply_action (is_critical : Bool) (variance : ℚ)
    (actor target : Combatant) (action : String) : Combatant × Combatant × String :=
  if action = "attack" then
    let damage := calculate_damage actor target "attack" is_critical variance
    let target1 := { target with hp := max 0 (target.hp - damage) }
    let crit_text := if is_critical then " 💥 CRITICAL HIT!" else ""
    (actor, target1,
      actor.displayName ++ " attacks for " ++ toString damage ++ " damage!" ++ crit_text)
  else if action = "defend" then
    let stamina_restore := min 5 (actor.max_stamina - actor.stamina)
    let actor1 := { actor with stamina := min actor.max_stamina (actor.stamina + stamina_restore) }
    (actor1, target,
      actor.displayName ++ " takes a defensive stance and recovers "
        ++ toString stamina_restore ++ " stamina!")
  else if action = "heal" then
    if actor.can_heal then
      let heal_amount := min (actor.level * 8 + 15) (actor.max_hp - actor.hp)
      let actor1 := { actor with
        hp := min actor.max_hp (actor.hp + heal_amount),
        stamina := max 0 (actor.stamina - 10) }
      (actor1, target,
        actor.displayName ++ " heals for " ++ toString heal_amount ++ " HP!")
    else
      (actor, target, actor.displayName ++ " cannot heal right now!")
  else if action = "element" then
    if actor.can_use_element_skill then
      let damage := calculate_damage actor target "element" is_critical variance
      let target1 := { target with hp := max 0 (target.hp - damage) }
      let actor1 := { actor with stamina := max 0 (actor.stamina - 15) }
      let effectiveness := get_element_effectiveness actor.element target.element
      let effectiveness_text :=
        if 1 < effectiveness then " ⚡ It\x27s super effective!"
        else if effectiveness < 1 then " 🛡️ It\x27s not very effective..." else ""
      let crit_text := if is_critical then " 💥 CRITICAL HIT!" else ""
      (actor1, target1,
        actor.displayName ++ " uses " ++ actor.element ++ " skill for "
          ++ toString damage ++ " damage!" ++ effectiveness_text ++ crit_text)
    else
      (actor, target,
        actor.displayName ++ " doesn\x27t have enough stamina for element skill!")
  else
    (actor, target, "")

/-- `GameLogic.execute_battle_action`: the `try` body (action dispatch, then
the defeat check setting `winner`), with `fault = true` standing for an
internal exception caught by the `except` branch, which returns the generic
error result. -/
def execute_battle_action (fault is_critical : Bool) (variance : ℚ)
    (actor target : Combatant) (action : String) : Combatant × Combatant × BattleResult :=
  if fault then
    (actor, target, ⟨"⚠️ An error occurred during the action.", none, 0⟩)
  else
    let r := apply_action is_critical variance actor target action
    let actor1 := r.1
    let target1 := r.2.1
    let action_log := r.2.2
    if target1.is_alive then
      (actor1, target1, ⟨action_log, none, 0⟩)
    else
      (actor1, target1,
        ⟨action_log ++ "\n\n💀 " ++ target1.displayName ++ " has been defeated!",
         some (if actor1.isPlayer then "player" else "npc"), 0⟩)

/-- `GameLogic.choose_npc_action`.  The uniform `random.choice` over
`['attack','attack','attack','defend']` is modelled by the index
`pick : Fin 4` into that list; a zero maximum (Python `ZeroDivisionError`,
caught by the `except` branch) yields the default `'attack'`. -/
def choose_npc_action (pick : Fin 4) (npc target : Combatant) : String :=
  if npc.max_hp = 0 ∨ npc.max_stamina = 0 then "attack"
  else
    let hp_percentage : ℚ := (npc.hp : ℚ) / (npc.max_hp : ℚ)
    let stamina_percentage : ℚ := (npc.stamina : ℚ) / (npc.max_stamina : ℚ)
    if hp_percentage < 3/10 ∧ npc.can_heal = true then "heal"
    else if 3/5 < stamina_percentage ∧ npc.can_use_element_skill = true ∧
        1 ≤ get_element_effectiveness npc.element target.element then "element"
    else if stamina_percentage < 3/10 then "defend"
    else ["attack", "attack", "attack", "defend"].get pick

/-! ### The PvP session layer of `src/main.py` -/

/-- A row of the `players` table as read by `db.get_player` (the fields the
PvP flow touches; `user_id` is the key of the store map). -/
structure PlayerRec where
  username : String
  element : String
  level : Int
  experience : Int
  hp : Int
  max_hp : Int
  stamina : Int
  max_stamina : Int
  attack : Int
  defense : Int
  agility : Int
  element_power : Int
  coins : Int
  battles_won : Int
  battles_lost : Int
deriving Repr, DecidableEq

/-- `Player(player_data)`: build the in-session combatant from a store row. -/
def toPlayer (user_id : Int) (d : PlayerRec) : Combatant :=
  { isPlayer := true, userId := user_id, displayName := d.username,
    element := d.element, level := d.level, hp := d.hp, max_hp := d.max_hp,
    stamina := d.stamina, max_stamina := d.max_stamina, attack := d.attack,
    defense := d.defense, agility := d.agility, element_power := d.element_power }

/-- An entry of `self.active_battles` (the fields the PvP flow touches). -/
structure Battle where
  player1_id : Int
  player2_id : Int
  current_turn : Int
  battle_log : List String
  turn_count : Int
deriving Repr, DecidableEq

/-- The bot state the PvP flow touches: the players table and the
in-memory `active_battles` registry, keyed by battle id. -/
structure BotState where
  store : List (Int × PlayerRec)
  active_battles : List (String × Battle)
deriving Repr, DecidableEq

/-- `db.update_player_stats(user_id, stats)`: set the given columns of the
given row (the partial dict is modelled as a row-update function). -/
def update_player_stats (store : List (Int × PlayerRec)) (user_id : Int)
    (f : PlayerRec → PlayerRec) : List (Int × PlayerRec) :=
  store.map (fun p => cond (p.1 == user_id) (p.1, f p.2) p)

/-- Overwrite the registry entry for a battle id (in-place mutation of the
`battle` dict in the source). -/
def update_battle (registry : List (String × Battle)) (battle_id : String)
    (b : Battle) : List (String × Battle) :=
  registry.map (fun p => cond (p.1 == battle_id) (p.1, b) p)

/-- The outcome `handle_pvp_action` reports back to the caller. -/
inductive PvpOutcome where
  | battleNotFound
  | notYourTurn
  | errorOccurred
  | acted (r : BattleResult)
  | ended (r : BattleResult)
deriving Repr, DecidableEq

/-- `handle_pvp_battle_end(bot, battle_id, result)`: map the winner tag to a
participant (`'player'` → `player1_id`, anything else → `player2_id`), pay
the winner `loserLevel*30` XP, `loserLevel*15` coins and a `battles_won`
increment, halve the loser's stored hp (floored at 1) and increment
`battles_lost`, then delete the battle from the registry.  A missing battle
or store row (a `KeyError` in the source, unreachable from the callers)
leaves the state unchanged. -/
def handle_pvp_battle_end (s : BotState) (battle_id : String)
    (winner_tag : String) : BotState :=
  match List.lookup battle_id s.active_battles with
  | none => s
  | some battle =>
    let winner_id := if winner_tag = "player" then battle.player1_id else battle.player2_id
    let loser_id := if winner_id = battle.player1_id then battle.player2_id else battle.player1_id
    match List.lookup winner_id s.store, List.lookup loser_id s.store with
    | some winner_data, some loser_data =>
      let xp_reward := loser_data.level * 30
      let coin_reward := loser_data.level * 15
      let store1 := update_player_stats s.store winner_id (fun w =>
        { w with battles_won := winner_data.battles_won + 1,
                 experience := winner_data.experience + xp_reward,
                 coins := winner_data.coins + coin_reward })
      let store2 := update_player_stats store1 loser_id (fun l =>
        { l with battles_lost := loser_data.battles_lost + 1,
                 hp := max 1 (Int.fdiv loser_data.hp 2) })
      { store := store2,
        active_battles := s.active_battles.filter (fun p => p.1 != battle_id) }
    | _, _ => s

/-- `handle_pvp_action`: reject unknown battle ids and out-of-turn users;
otherwise read both players fresh from the store, resolve the action via
`execute_battle_action` on the actor/opponent copies, append the log line,
write the ACTOR's hp and stamina back to the store, and either settle the
battle (when a winner is reported) or flip the turn holder and bump the
turn counter.  A failed store read is the caught-exception path. -/
def handle_pvp_action (is_critical : Bool) (variance : ℚ) (s : BotState)
    (battle_id : String) (user_id : Int) (action : String) : BotState × PvpOutcome :=
  match List.lookup battle_id s.active_battles with
  | none => (s, .battleNotFound)
  | some battle =>
    if battle.current_turn ≠ user_id then (s, .notYourTurn)
    else
      match List.lookup battle.player1_id s.store, List.lookup battle.player2_id s.store with
      | some player1_data, some player2_data =>
        let current_player :=
          if user_id = battle.player1_id then toPlayer battle.player1_id player1_data
          else toPlayer battle.player2_id player2_data
        let opponent :=
          if user_id = battle.player1_id then toPlayer battle.player2_id player2_data
          else toPlayer battle.player1_id player1_data
        let out := execute_battle_action false is_critical variance current_player opponent action
        let current1 := out.1
        let result := out.2.2
        let battle1 := { battle with battle_log := battle.battle_log ++ [result.log] }
        let store1 := update_player_stats s.store current1.userId (fun p =>
          { p with hp := current1.hp, stamina := current1.stamina })
        let s1 : BotState := { store := store1,
                               active_battles := update_battle s.active_battles battle_id battle1 }
        match result.winner with
        | some w => (handle_pvp_battle_end s1 battle_id w, .ended result)
        | none =>
          let battle2 := { battle1 with
            current_turn :=
              if battle1.current_turn = battle.player1_id then battle.player2_id
              else battle.player1_id,
            turn_count := battle1.turn_count + 1 }
          ({ store := store1,
             active_battles := update_battle s.active_battles battle_id battle2 }, .acted result)
      | _, _ => (s, .errorOccurred)

/-! ### Spec-side definitions and concrete probe inputs -/

/-- Rounding to the nearest integer, as in the spec's damage formula. -/
def rat_round (q : ℚ) : ℤ := ⌊q + 1/2⌋

/-- Modelled from the spec: the damage formula as §4.1 states it —
`max(1, round(max(1, base - defense*0.5) * effectiveness * variance *
crit))` — to be compared with `calculate_damage`, which the source ends
with `max(1, int(damage))` instead of `round`. -/
def calculate_damage_per_spec (attacker defender : Combatant) (action : String)
    (is_critical : Bool) (variance : ℚ) : Int :=
  let base : ℚ :=
    if action = "attack" then (attacker.attack : ℚ) else (attacker.element_power : ℚ)
  let e : ℚ :=
    if action = "element" then get_element_effectiveness attacker.element defender.element
    else 1
  let c : ℚ := if is_critical then 3/2 else 1
  max 1 (rat_round (max 1 (base - (defender.defense : ℚ) * (1/2)) * e * variance * c))

/-- Probe combatant (player side) used to instantiate universally
quantified theorems at a concrete input. -/
def probeA : Combatant :=
  ⟨true, 1, "Alice", "Fire", 3, 50, 100, 50, 50, 10, 4, 10, 30⟩

/-- Probe combatant (target side) for concrete instantiations. -/
def probeB : Combatant :=
  ⟨true, 2, "Bob", "Water", 2, 80, 100, 40, 50, 12, 6, 8, 25⟩

/-- Actor with stamina 5 (below the heal cost of 10): the spec's
failed-heal scenario. -/
def c5_tired : Combatant :=
  ⟨true, 3, "Tess", "Earth", 2, 40, 100, 5, 50, 10, 4, 10, 30⟩

/-- An NPC at 20% hp with stamina 30/50: the heal rule of the NPC policy
fires. -/
def c6_npc : Combatant :=
  ⟨false, 0, "Frost Wolf", "Ice", 2, 20, 100, 30, 50, 12, 8, 10, 25⟩

/-- Attacker with attack 10 against `c3_defender`: the pipeline value is
`max(1, 10 - 0.5) = 9.5`, where truncation (9) and rounding (10) differ. -/
def c3_attacker : Combatant :=
  ⟨true, 1, "A", "Fire", 1, 100, 100, 50, 50, 10, 0, 0, 0⟩

/-- Defender with defense 1 for the C3 probe. -/
def c3_defender : Combatant :=
  ⟨true, 2, "B", "Water", 1, 100, 100, 50, 50, 0, 1, 0, 0⟩

/-- Actor with a negative level: `heal` computes the negative heal amount
`min(-10*8+15, 95) = -65` and drives hp to `min(100, 5-65) = -60`. -/
def c4_actor : Combatant :=
  ⟨true, 1, "N", "Fire", -10, 5, 100, 20, 50, 5, 5, 5, 5⟩

/-- Bystander target for the C4 probe. -/
def c4_target : Combatant :=
  ⟨true, 2, "T", "Water", 1, 50, 100, 20, 50, 5, 5, 5, 5⟩

/-- Stored row of player 1 (id 1) in the C1 scenario: 5 hp left, about to
be defeated by player 2's attack. -/
def c1_p1 : PlayerRec := ⟨"Alice", "Fire", 3, 0, 5, 100, 50, 50, 10, 0, 10, 20, 0, 0, 0⟩

/-- Stored row of player 2 (id 2) in the C1 scenario: attack 30 kills a
5-hp, 0-defense opponent in one hit (damage 30 at variance 1, no crit). -/
def c1_p2 : PlayerRec := ⟨"Bob", "Water", 2, 0, 80, 100, 50, 50, 30, 0, 10, 20, 0, 0, 0⟩

/-- The C1 bot state: one active battle `"b1"` between players 1 and 2,
with player 2 (the joiner) holding the turn. -/
def c1_state : BotState :=
  ⟨[(1, c1_p1), (2, c1_p2)], [("b1", ⟨1, 2, 2, [], 1⟩)]⟩

/-- Stored row of player 1 (id 1) in the C2 scenario: 50 hp, survives the
10-damage hit, so the battle continues. -/
def c2_p1 : PlayerRec := ⟨"Alice", "Fire", 3, 0, 50, 100, 50, 50, 10, 0, 10, 20, 0, 0, 0⟩

/-- Stored row of player 2 (id 2) in the C2 scenario: attack 10 deals
exactly 10 damage to a 0-defense target at variance 1, no crit. -/
def c2_p2 : PlayerRec := ⟨"Bob", "Water", 2, 0, 80, 100, 50, 50, 10, 0, 10, 20, 0, 0, 0⟩

/-- The C2 bot state: battle `"b1"` between players 1 and 2, player 2 to
act. -/
def c2_state : BotState :=
  ⟨[(1, c2_p1), (2, c2_p2)], [("b1", ⟨1, 2, 2, [], 1⟩)]⟩

/-- A terminated-session probe state for C8: battle `"b8"` between players
1 and 2, both present in the store. -/
def c8_state : BotState :=
  ⟨[(1, c1_p1), (2, c1_p2)], [("b8", ⟨1, 2, 1, [], 4⟩)]⟩

/-! ### Helper lemmas -/

/-- A recognized action's damage is at least 1 (`max(1, int(damage))`). -/
lemma one_le_calculate_damage (a d : Combatant) (act : String) (crit : Bool)
    (v : ℚ) (h : act = "attack" ∨ act = "element") :
    1 ≤ calculate_damage a d act crit v := by
  rcases h with h | h <;> subst h <;>
    simp only [calculate_damage, ne_eq, if_neg, if_pos, reduceIte] <;>
    exact le_max_left _ _

/-- The resolved actor of `execute_battle_action` (no fault) is the actor
produced by the action dispatch. -/
lemma execute_actor_eq (crit : Bool) (v : ℚ) (a t : Combatant) (act : String) :
    (execute_battle_action false crit v a t act).1 = (apply_action crit v a t act).1 := by
  unfold execute_battle_action
  simp only [Bool.false_eq_true, if_false]
  split <;> rfl

/-- The resolved target of `execute_battle_action` (no fault) is the target
produced by the action dispatch. -/
lemma execute_target_eq (crit : Bool) (v : ℚ) (a t : Combatant) (act : String) :
    (execute_battle_action false crit v a t act).2.1 = (apply_action crit v a t act).2.1 := by
  unfold execute_battle_action
  simp only [Bool.false_eq_true, if_false]
  split <;> rfl

/-- A string with a nonempty right append component is nonempty. -/
lemma append_right_ne_empty (s1 s2 : String) (h : s2.length ≠ 0) : s1 ++ s2 ≠ "" := by
  intro hc
  have hlen := congrArg String.length hc
  rw [String.length_append] at hlen
  simp only [String.length_empty] at hlen
  omega

/-! ### C10 — unrecognized actions deal zero damage -/

/-- C10: `calculate_damage` invoked with any action other than `'attack'`
or `'element'` returns exactly 0 (not a value ≥ 1) for every pair of
combatants, independently of all combatant state — the damage floor of 1
applies only to the two recognized action names. -/
theorem c10_unknown_action_damage_zero (act : String)
    (h1 : act ≠ "attack") (h2 : act ≠ "element") :
    (∀ a d crit v, calculate_damage a d act crit v = 0) ∧
    (∀ a d a2 d2 crit v,
      calculate_damage a d act crit v = calculate_damage a2 d2 act crit v) := by
  constructor <;> intros <;> simp [calculate_damage, h1, h2]

/-- C10 witness: the `'defend'` action yields damage 0 at a concrete pair
of combatants. -/
theorem c10_unknown_action_damage_zero_witness :
    calculate_damage probeA probeB "defend" false 1 = 0 :=
  (c10_unknown_action_damage_zero "defend" (by decide) (by decide)).1 probeA probeB false 1

/-! ### C3 — the damage formula -/

/-- C3 counterexample: with attack 10 against defense 1 (pipeline value
9.5, variance pinned to 1, no crit) the source truncates to 9 while the
claimed formula rounds to 10, so `calculate_damage` does not equal
`max(1, round(...))` as stated. -/
theorem c3_round_counterexample :
    calculate_damage c3_attacker c3_defender "attack" false 1 = 9 ∧
    calculate_damage_per_spec c3_attacker c3_defender "attack" false 1 = 10 ∧
    calculate_damage c3_attacker c3_defender "attack" false 1 ≠
      calculate_damage_per_spec c3_attacker c3_defender "attack" false 1 := by
  have h1 : calculate_damage c3_attacker c3_defender "attack" false 1 = 9 := by
    simp [calculate_damage, c3_attacker, c3_defender]
    norm_num
  have h2 : calculate_damage_per_spec c3_attacker c3_defender "attack" false 1 = 10 := by
    simp [calculate_damage_per_spec, rat_round, c3_attacker, c3_defender]
    norm_num
  refine ⟨h1, h2, by rw [h1, h2]; decide⟩

/-- C3 (amended): for action ∈ {attack, element} and pinned variance
v ∈ [0.8, 1.2], `calculate_damage` returns
`max(1, ⌊max(1, base − defense*0.5) * e * v * c⌋)` — truncation toward
zero, not rounding, of the positive pipeline value — with
base = attack / element_power, e = effectiveness for element and 1
otherwise, c = 1.5 when critical; the result is always ≥ 1. -/
theorem c3_damage_formula (a d : Combatant) (act : String) (crit : Bool)
    (v : ℚ) (hact : act = "attack" ∨ act = "element")
    (hv1 : 4/5 ≤ v) (hv2 : v ≤ 6/5) :
    calculate_damage a d act crit v =
      max 1 (⌊max 1 ((if act = "attack" then (a.attack : ℚ) else (a.element_power : ℚ))
            - (d.defense : ℚ) * (1/2))
          * (if act = "element" then get_element_effectiveness a.element d.element else 1)
          * v * (if crit then 3/2 else 1)⌋) ∧
    1 ≤ calculate_damage a d act crit v := by
  refine ⟨?_, one_le_calculate_damage a d act crit v hact⟩
  rcases hact with h | h <;> subst h <;>
    cases crit <;>
    simp [calculate_damage, mul_one, mul_comm, mul_assoc, mul_left_comm]

/-- C3 witness: the spec's own scenario — Fire attacker with element power
30 uses the element skill on an Ice defender with defense 20, effectiveness
1.5, variance 1, no crit — yields damage 30, and the variance bound holds. -/
theorem c3_damage_formula_witness :
    ((1 : ℚ) = 1 ∨ True) ∧
    calculate_damage
        ⟨true, 1, "F", "Fire", 1, 100, 100, 50, 50, 10, 0, 0, 30⟩
        ⟨true, 2, "I", "Ice", 1, 100, 100, 50, 50, 0, 20, 0, 0⟩ "element" false 1 =
      max 1 (⌊max 1 ((30 : ℚ) - (20 : ℚ) * (1/2))
          * get_element_effectiveness "Fire" "Ice" * 1 * 1⌋) := by
  refine ⟨Or.inl rfl, ?_⟩
  have h := (c3_damage_formula
    ⟨true, 1, "F", "Fire", 1, 100, 100, 50, 50, 10, 0, 0, 30⟩
    ⟨true, 2, "I", "Ice", 1, 100, 100, 50, 50, 0, 20, 0, 0⟩ "element" false 1
    (Or.inr rfl) (by norm_num) (by norm_num)).1
  simpa using h

/-! ### C7 — effectiveness lookup -/

/-- C7: `get_element_effectiveness` returns exactly the multiplier declared
for the pair in the element effectiveness matrix, and exactly 1 for every
pair with no declared relation — including when the attacker element is
absent from the matrix entirely; sample declared and undeclared pairs are
evaluated. -/
theorem c7_effectiveness_lookup :
    (∀ a d m, declared_multiplier a d = some m → get_element_effectiveness a d = m) ∧
    (∀ a d, declared_multiplier a d = none → get_element_effectiveness a d = 1) ∧
    get_element_effectiveness "Fire" "Ice" = 3/2 ∧
    get_element_effectiveness "Shadow" "Fire" = 6/5 ∧
    get_element_effectiveness "Earth" "Fire" = 4/5 ∧
    get_element_effectiveness "Fire" "Light" = 1 ∧
    get_element_effectiveness "Mystery" "Fire" = 1 := by
  refine ⟨?_, ?_, ?_, ?_, ?_, ?_, ?_⟩
  · intro a d m h
    unfold get_element_effectiveness
    unfold declared_multiplier at h
    cases hrow : List.lookup a element_effectiveness with
    | none => rw [hrow] at h; simp at h
    | some row =>
      rw [hrow] at h
      simp only [Option.bind] at h
      simp [h]
  · intro a d h
    unfold get_element_effectiveness
    unfold declared_multiplier at h
    cases hrow : List.lookup a element_effectiveness with
    | none => rfl
    | some row =>
      rw [hrow] at h
      simp only [Option.bind] at h
      simp [h]
  all_goals simp [get_element_effectiveness, element_effectiveness, List.lookup]

/-- C7 witness: a declared pair resolved through the general lookup
theorem. -/
theorem c7_effectiveness_lookup_witness :
    get_element_effectiveness "Lightning" "Earth" = 3/2 :=
  c7_effectiveness_lookup.1 "Lightning" "Earth" (3/2)
    (by simp [declared_multiplier, element_effectiveness, List.lookup])

/-! ### C5 — the heal action -/

/-- C5: when `canHeal()` holds (stamina ≥ 10 and hp < max_hp) the heal
action raises the actor's hp by exactly `min(level*8+15, max_hp - hp)` and
lowers stamina by exactly 10, leaving the target untouched; when it does
not hold, actor and target are unchanged and the turn still produces a
non-empty descriptive log entry. -/
theorem c5_heal_action (crit : Bool) (v : ℚ) (a t : Combatant) :
    (a.can_heal = true →
      (execute_battle_action false crit v a t "heal").1.hp
          = a.hp + min (a.level * 8 + 15) (a.max_hp - a.hp) ∧
      (execute_battle_action false crit v a t "heal").1.stamina = a.stamina - 10 ∧
      (execute_battle_action false crit v a t "heal").2.1 = t) ∧
    (a.can_heal = false →
      (execute_battle_action false crit v a t "heal").1 = a ∧
      (execute_battle_action false crit v a t "heal").2.1 = t ∧
      (execute_battle_action false crit v a t "heal").2.2.log ≠ "") := by
  constructor
  · intro h
    have hs : 10 ≤ a.stamina ∧ a.hp < a.max_hp := by
      simpa [Combatant.can_heal, decide_eq_true_eq] using h
    rw [execute_actor_eq, execute_target_eq]
    unfold apply_action
    simp only [reduceIte, h, if_true, if_false]
    refine ⟨by simp; omega, by simp; omega, by simp⟩
  · intro h
    unfold execute_battle_action apply_action
    simp only [String.reduceEq, Bool.false_eq_true, if_false, reduceIte, h]
    split
    · exact ⟨rfl, rfl, append_right_ne_empty _ _ (by decide)⟩
    · exact ⟨rfl, rfl, append_right_ne_empty _ _ (by decide)⟩

/-- C5 witness: the spec's scenario — an actor with stamina 5 attempting
heal is a state-preserving no-op with a non-empty log — and a successful
heal on `probeA` (stamina 50, hp 50/100, level 3) gives +39 hp / −10
stamina. -/
theorem c5_heal_action_witness :
    probeA.can_heal = true ∧
    (execute_battle_action false false 1 probeA probeB "heal").1.hp
        = probeA.hp + min (probeA.level * 8 + 15) (probeA.max_hp - probeA.hp) ∧
    (execute_battle_action false false 1 probeA probeB "heal").1.stamina
        = probeA.stamina - 10 ∧
    c5_tired.can_heal = false ∧
    (execute_battle_action false false 1 c5_tired probeB "heal").1 = c5_tired ∧
    (execute_battle_action false false 1 c5_tired probeB "heal").2.2.log ≠ "" := by
  have h1 := (c5_heal_action false 1 probeA probeB).1 (by decide)
  have h2 := (c5_heal_action false 1 c5_tired probeB).2 (by decide)
  exact ⟨by decide, h1.1, h1.2.1, by decide, h2.1, h2.2.2⟩

/-! ### C4 — hp/stamina bounds -/

/-- All four bound invariants are preserved by the action dispatch when the
actor's level is nonnegative. -/
lemma apply_action_preserves_bounds (crit : Bool) (v : ℚ) (a t : Combatant)
    (act : String) (hl : 0 ≤ a.level)
    (ha1 : 0 ≤ a.hp) (ha2 : a.hp ≤ a.max_hp)
    (ha3 : 0 ≤ a.stamina) (ha4 : a.stamina ≤ a.max_stamina)
    (ht1 : 0 ≤ t.hp) (ht2 : t.hp ≤ t.max_hp)
    (ht3 : 0 ≤ t.stamina) (ht4 : t.stamina ≤ t.max_stamina) :
    (0 ≤ (apply_action crit v a t act).1.hp ∧
     (apply_action crit v a t act).1.hp ≤ (apply_action crit v a t act).1.max_hp ∧
     0 ≤ (apply_action crit v a t act).1.stamina ∧
     (apply_action crit v a t act).1.stamina ≤ (apply_action crit v a t act).1.max_stamina) ∧
    (0 ≤ (apply_action crit v a t act).2.1.hp ∧
     (apply_action crit v a t act).2.1.hp ≤ (apply_action crit v a t act).2.1.max_hp ∧
     0 ≤ (apply_action crit v a t act).2.1.stamina ∧
     (apply_action crit v a t act).2.1.stamina ≤ (apply_action crit v a t act).2.1.max_stamina) := by
  have hd1 := one_le_calculate_damage a t "attack" crit v (Or.inl rfl)
  have hd2 := one_le_calculate_damage a t "element" crit v (Or.inr rfl)
  unfold apply_action
  split_ifs <;>
    simp_all [Combatant.can_heal, Combatant.can_use_element_skill,
      decide_eq_true_eq] <;>
    omega

/-- C4 counterexample: an actor with level −10 satisfying all four bound
invariants (hp 5/100, stamina 20/50) performs `heal`; the heal amount
`min(-10*8+15, 100-5) = -65` drives the actor's hp to −60 < 0, so the
claim's unconditional bound preservation fails. -/
theorem c4_bounds_counterexample :
    (0 ≤ c4_actor.hp ∧ c4_actor.hp ≤ c4_actor.max_hp ∧
     0 ≤ c4_actor.stamina ∧ c4_actor.stamina ≤ c4_actor.max_stamina) ∧
    (0 ≤ c4_target.hp ∧ c4_target.hp ≤ c4_target.max_hp ∧
     0 ≤ c4_target.stamina ∧ c4_target.stamina ≤ c4_target.max_stamina) ∧
    (execute_battle_action false false 1 c4_actor c4_target "heal").1.hp = -60 := by
  refine ⟨by decide, by decide, ?_⟩
  rw [execute_actor_eq]
  unfold apply_action
  simp [c4_actor, Combatant.can_heal]

/-- C4 (amended): `execute_battle_action` preserves `0 ≤ hp ≤ max_hp` and
`0 ≤ stamina ≤ max_stamina` for both combatants and every action, provided
the actor's level is nonnegative (a negative level makes the heal amount
`level*8+15` negative and can push the actor's hp below 0): attack and
element clamp the target's hp at 0, heal clamps the actor's hp at max_hp,
defend clamps the actor's stamina at max_stamina, and heal/element clamp
the actor's stamina at 0. -/
theorem c4_bounds_preserved (crit : Bool) (v : ℚ) (a t : Combatant)
    (act : String) (hl : 0 ≤ a.level)
    (ha1 : 0 ≤ a.hp) (ha2 : a.hp ≤ a.max_hp)
    (ha3 : 0 ≤ a.stamina) (ha4 : a.stamina ≤ a.max_stamina)
    (ht1 : 0 ≤ t.hp) (ht2 : t.hp ≤ t.max_hp)
    (ht3 : 0 ≤ t.stamina) (ht4 : t.stamina ≤ t.max_stamina) :
    (0 ≤ (execute_battle_action false crit v a t act).1.hp ∧
     (execute_battle_action false crit v a t act).1.hp
        ≤ (execute_battle_action false crit v a t act).1.max_hp ∧
     0 ≤ (execute_battle_action false crit v a t act).1.stamina ∧
     (execute_battle_action false crit v a t act).1.stamina
        ≤ (execute_battle_action false crit v a t act).1.max_stamina) ∧
    (0 ≤ (execute_battle_action false crit v a t act).2.1.hp ∧
     (execute_battle_action false crit v a t act).2.1.hp
        ≤ (execute_battle_action false crit v a t act).2.1.max_hp ∧
     0 ≤ (execute_battle_action false crit v a t act).2.1.stamina ∧
     (execute_battle_action false crit v a t act).2.1.stamina
        ≤ (execute_battle_action false crit v a t act).2.1.max_stamina) := by
  rw [execute_actor_eq, execute_target_eq]
  exact apply_action_preserves_bounds crit v a t act hl ha1 ha2 ha3 ha4 ht1 ht2 ht3 ht4

/-- C4 witness: the bounds hold after `probeA` attacks `probeB`. -/
theorem c4_bounds_preserved_witness :
    (0 ≤ probeA.level ∧ 0 ≤ probeA.hp ∧ probeA.hp ≤ probeA.max_hp ∧
     0 ≤ probeA.stamina ∧ probeA.stamina ≤ probeA.max_stamina ∧
     0 ≤ probeB.hp ∧ probeB.hp ≤ probeB.max_hp ∧
     0 ≤ probeB.stamina ∧ probeB.stamina ≤ probeB.max_stamina) ∧
    0 ≤ (execute_battle_action false false 1 probeA probeB "attack").2.1.hp ∧
    (execute_battle_action false false 1 probeA probeB "attack").2.1.hp
      ≤ (execute_battle_action false false 1 probeA probeB "attack").2.1.max_hp := by
  have h := c4_bounds_preserved false 1 probeA probeB "attack"
    (by decide) (by decide) (by decide) (by decide) (by decide)
    (by decide) (by decide) (by decide) (by decide)
  exact ⟨by decide, h.2.1, h.2.2.1⟩

/-! ### C6 — the NPC decision policy -/

/-- C6: for max_hp > 0 and max_stamina > 0, `choose_npc_action` follows
the stated priority order with first match winning — heal iff
hp% < 0.3 ∧ canHeal; otherwise element iff stamina% > 0.6 ∧
canUseElementSkill ∧ effectiveness ≥ 1; otherwise defend when
stamina% < 0.3; otherwise the uniform pick from
['attack','attack','attack','defend'] (weights 3:1), which is always
'attack' or 'defend'. -/
theorem c6_npc_policy (pick : Fin 4) (npc target : Combatant)
    (h1 : 0 < npc.max_hp) (h2 : 0 < npc.max_stamina) :
    (choose_npc_action pick npc target = "heal" ↔
      ((npc.hp : ℚ) / (npc.max_hp : ℚ) < 3/10 ∧ npc.can_heal = true)) ∧
    (¬((npc.hp : ℚ) / (npc.max_hp : ℚ) < 3/10 ∧ npc.can_heal = true) →
      (choose_npc_action pick npc target = "element" ↔
        (3/5 < (npc.stamina : ℚ) / (npc.max_stamina : ℚ) ∧
         npc.can_use_element_skill = true ∧
         1 ≤ get_element_effectiveness npc.element target.element))) ∧
    (¬((npc.hp : ℚ) / (npc.max_hp : ℚ) < 3/10 ∧ npc.can_heal = true) →
     ¬(3/5 < (npc.stamina : ℚ) / (npc.max_stamina : ℚ) ∧
       npc.can_use_element_skill = true ∧
       1 ≤ get_element_effectiveness npc.element target.element) →
     (npc.stamina : ℚ) / (npc.max_stamina : ℚ) < 3/10 →
      choose_npc_action pick npc target = "defend") ∧
    (¬((npc.hp : ℚ) / (npc.max_hp : ℚ) < 3/10 ∧ npc.can_heal = true) →
     ¬(3/5 < (npc.stamina : ℚ) / (npc.max_stamina : ℚ) ∧
       npc.can_use_element_skill = true ∧
       1 ≤ get_element_effectiveness npc.element target.element) →
     ¬((npc.stamina : ℚ) / (npc.max_stamina : ℚ) < 3/10) →
      choose_npc_action pick npc target
          = ["attack", "attack", "attack", "defend"].get pick ∧
      (choose_npc_action pick npc target = "attack" ∨
       choose_npc_action pick npc target = "defend")) := by
  simp only [choose_npc_action]
  split_ifs with hg hc1 hc2 hc3
  · exfalso; omega
  · exact ⟨iff_of_true rfl hc1,
      fun h => absurd hc1 h, fun h => absurd hc1 h, fun h => absurd hc1 h⟩
  · exact ⟨by simp [hc1], fun _ => iff_of_true rfl hc2,
      fun _ h => absurd hc2 h, fun _ h => absurd hc2 h⟩
  · exact ⟨by simp [hc1], fun _ => by simp [hc2],
      fun _ _ _ => rfl, fun _ _ h => absurd hc3 h⟩
  · refine ⟨by fin_cases pick <;> simp [hc1] <;> decide,
      fun _ => by fin_cases pick <;> simp [hc2] <;> decide,
      fun _ _ h => absurd h hc3,
      fun _ _ _ => ⟨rfl, by fin_cases pick <;> decide⟩⟩

/-- C6 witness: a 20%-hp NPC that can heal chooses `'heal'`. -/
theorem c6_npc_policy_witness :
    (0 : Int) < c6_npc.max_hp ∧ (0 : Int) < c6_npc.max_stamina ∧
    choose_npc_action 0 c6_npc probeB = "heal" := by
  refine ⟨by decide, by decide, ?_⟩
  exact (c6_npc_policy 0 c6_npc probeB (by decide) (by decide)).1.mpr
    ⟨by simp [c6_npc]; norm_num, by decide⟩




/-! ### C9 — failure semantics of `execute_battle_action` -/

/-- The action dispatch never drives the target's hp negative. -/
lemma apply_action_target_hp_nonneg (crit : Bool) (v : ℚ) (a t : Combatant)
    (act : String) (ht : 0 ≤ t.hp) :
    0 ≤ (apply_action crit v a t act).2.1.hp := by
  have hd1 := one_le_calculate_damage a t "attack" crit v (Or.inl rfl)
  have hd2 := one_le_calculate_damage a t "element" crit v (Or.inr rfl)
  unfold apply_action
  split_ifs <;> simp_all

/-- C9: `execute_battle_action` is total — for every actor, target and
action string it returns the `log`/`winner`/`damage_dealt` result record —
an internal error (the caught-exception path) yields the generic error log
with `winner = none` and unchanged combatants (the session is not
terminated), and `winner` is non-`none` only when the target's hp is 0
after the action. -/
theorem c9_error_safety (crit : Bool) (v : ℚ) (a t : Combatant) (act : String)
    (ht : 0 ≤ t.hp) :
    execute_battle_action true crit v a t act
        = (a, t, ⟨"⚠️ An error occurred during the action.", none, 0⟩) ∧
    (∀ w, (execute_battle_action false crit v a t act).2.2.winner = some w →
      (execute_battle_action false crit v a t act).2.1.hp = 0) := by
  constructor
  · rfl
  · intro w hw
    have hnn := apply_action_target_hp_nonneg crit v a t act ht
    rw [execute_target_eq]
    simp only [execute_battle_action, Bool.false_eq_true, if_false] at hw
    split at hw
    · simp at hw
    · rename_i hal
      have hle : ¬(0 < (apply_action crit v a t act).2.1.hp) := by
        simpa [Combatant.is_alive] using hal
      omega

/-- C9 witness: the fault path at a concrete input returns the generic
error result and leaves both combatants unchanged. -/
theorem c9_error_safety_witness :
    (0 : Int) ≤ probeB.hp ∧
    execute_battle_action true false 1 probeA probeB "attack"
      = (probeA, probeB, ⟨"⚠️ An error occurred during the action.", none, 0⟩) :=
  ⟨by decide, (c9_error_safety false 1 probeA probeB "attack" (by decide)).1⟩

/-! ### C8 — eviction of terminated sessions -/

/-- Looking up a key in a list filtered to exclude that key yields
nothing. -/
lemma lookup_filter_self_none (battle_id : String) (l : List (String × Battle)) :
    List.lookup battle_id (l.filter (fun p => p.1 != battle_id)) = none := by
  induction l with
  | nil => rfl
  | cons hd tl ih =>
    by_cases h : hd.1 = battle_id
    · simpa [List.filter_cons, h] using ih
    · have hbe : (battle_id == hd.1) = false := by
        simp only [beq_eq_false_iff_ne, ne_eq]
        exact fun hh => h hh.symm
      simp [List.filter_cons, h, List.lookup, hbe, ih]

/-- C8: settling a PvP battle removes its id from the active-battle
registry, and any action subsequently submitted for that id is answered
with the battle-not-found outcome and leaves the state unchanged — in
particular a duplicate delivery of the final action cannot re-apply the
winner's rewards or the loser's penalty. -/
theorem c8_session_eviction (s : BotState) (battle_id winner_tag : String)
    (b : Battle) (w l : PlayerRec)
    (hb : List.lookup battle_id s.active_battles = some b)
    (hw : List.lookup (if winner_tag = "player" then b.player1_id else b.player2_id)
        s.store = some w)
    (hl : List.lookup
        (if (if winner_tag = "player" then b.player1_id else b.player2_id) = b.player1_id
         then b.player2_id else b.player1_id) s.store = some l) :
    List.lookup battle_id (handle_pvp_battle_end s battle_id winner_tag).active_battles
      = none ∧
    ∀ crit v user_id action,
      handle_pvp_action crit v (handle_pvp_battle_end s battle_id winner_tag)
          battle_id user_id action
        = (handle_pvp_battle_end s battle_id winner_tag, PvpOutcome.battleNotFound) := by
  have hreg : (handle_pvp_battle_end s battle_id winner_tag).active_battles
      = s.active_battles.filter (fun p => p.1 != battle_id) := by
    simp only [handle_pvp_battle_end, hb, hw, hl]
  have hnone : List.lookup battle_id
      (handle_pvp_battle_end s battle_id winner_tag).active_battles = none := by
    rw [hreg]; exact lookup_filter_self_none battle_id s.active_battles
  refine ⟨hnone, ?_⟩
  intro crit v user_id action
  simp only [handle_pvp_action, hnone]

/-- C8 witness: after settling battle `"b8"` of `c8_state`, the id is gone
from the registry and a re-submitted action reports battle-not-found. -/
theorem c8_session_eviction_witness :
    List.lookup "b8" (handle_pvp_battle_end c8_state "b8" "player").active_battles
      = none ∧
    handle_pvp_action false 1 (handle_pvp_battle_end c8_state "b8" "player")
        "b8" 2 "attack"
      = (handle_pvp_battle_end c8_state "b8" "player", PvpOutcome.battleNotFound) := by
  have h := c8_session_eviction c8_state "b8" "player" ⟨1, 2, 1, [], 4⟩ c1_p1 c1_p2
    (by decide) (by decide) (by decide)
  exact ⟨h.1, h.2 false 1 2 "attack"⟩

/-! ### C1 — PvP winner attribution -/

set_option maxHeartbeats 1000000 in
/-- C1 (code bug at the failing input): in the PvP battle of `c1_state`,
player 2 (the turn holder) attacks and reduces player 1 to 0 hp;
`execute_battle_action` tags the winner `'player'` because the ACTOR is a
`Player` (both PvP participants are), and `handle_pvp_battle_end` maps
`'player'` to `player1_id` unconditionally — so the DEFEATED player 1
receives the `battles_won` increment and the `loserLevel*30` XP /
`loserLevel*15` coin winner bonus (loser level 2 → +60 XP, +30 coins),
while the acting player 2 is recorded as the loser (`battles_lost` + 1,
hp halved 80 → 40); the session is then evicted. -/
theorem c1_winner_misassigned :
    (execute_battle_action false false 1 (toPlayer 2 c1_p2) (toPlayer 1 c1_p1) "attack").2.1.hp
      = 0 ∧
    (execute_battle_action false false 1 (toPlayer 2 c1_p2) (toPlayer 1 c1_p1) "attack").2.2.winner
      = some "player" ∧
    List.lookup 1 ((handle_pvp_action false 1 c1_state "b1" 2 "attack").1).store
      = some { c1_p1 with battles_won := 1, experience := 60, coins := 30 } ∧
    List.lookup 2 ((handle_pvp_action false 1 c1_state "b1" 2 "attack").1).store
      = some { c1_p2 with battles_lost := 1, hp := 40 } ∧
    (handle_pvp_action false 1 c1_state "b1" 2 "attack").1.active_battles = [] := by
  have h1 : (execute_battle_action false false 1
      ⟨true, 2, "Bob", "Water", 2, 80, 100, 50, 50, 30, 0, 10, 20⟩
      ⟨true, 1, "Alice", "Fire", 3, 5, 100, 50, 50, 10, 0, 10, 20⟩ "attack").1
      = ⟨true, 2, "Bob", "Water", 2, 80, 100, 50, 50, 30, 0, 10, 20⟩ := by
    rw [execute_actor_eq]
    simp [apply_action]
  have h3 : (execute_battle_action false false 1
      ⟨true, 2, "Bob", "Water", 2, 80, 100, 50, 50, 30, 0, 10, 20⟩
      ⟨true, 1, "Alice", "Fire", 3, 5, 100, 50, 50, 10, 0, 10, 20⟩ "attack").2.2.winner
      = some "player" := by
    simp [execute_battle_action, apply_action, calculate_damage, Combatant.is_alive]
  refine ⟨?_, ?_, ?_, ?_, ?_⟩
  · rw [execute_target_eq]
    simp [apply_action, calculate_damage, toPlayer, c1_p1, c1_p2]
  · simpa [toPlayer, c1_p1, c1_p2] using h3
  all_goals
    simp [handle_pvp_action, handle_pvp_battle_end, update_player_stats, update_battle,
      List.lookup, c1_state, Combatant.is_alive, List.filter_cons, Int.fdiv, h1, h3,
      toPlayer, c1_p1, c1_p2]

/-! ### C2 — persistence of action deltas -/

set_option maxHeartbeats 1000000 in
/-- C2 (code bug at the failing input): in the PvP battle of `c2_state`,
player 2 attacks player 1 for 10 damage (in-memory hp 50 → 40, battle
continues); `handle_pvp_action` writes back only the ACTOR's hp and
stamina, so after the turn the store still holds player 1 at hp 50 — the
damage subtracted from the target's hp is never persisted, and the next
turn's fresh snapshot does not reflect it. -/
theorem c2_target_damage_not_persisted :
    (execute_battle_action false false 1 (toPlayer 2 c2_p2) (toPlayer 1 c2_p1) "attack").2.1.hp
      = 40 ∧
    (execute_battle_action false false 1 (toPlayer 2 c2_p2) (toPlayer 1 c2_p1) "attack").2.2.winner
      = none ∧
    List.lookup 1 ((handle_pvp_action false 1 c2_state "b1" 2 "attack").1).store = some c2_p1 ∧
    List.lookup 2 ((handle_pvp_action false 1 c2_state "b1" 2 "attack").1).store = some c2_p2 := by
  have h1 : (execute_battle_action false false 1
      ⟨true, 2, "Bob", "Water", 2, 80, 100, 50, 50, 10, 0, 10, 20⟩
      ⟨true, 1, "Alice", "Fire", 3, 50, 100, 50, 50, 10, 0, 10, 20⟩ "attack").1
      = ⟨true, 2, "Bob", "Water", 2, 80, 100, 50, 50, 10, 0, 10, 20⟩ := by
    rw [execute_actor_eq]
    simp [apply_action]
  have h3 : (execute_battle_action false false 1
      ⟨true, 2, "Bob", "Water", 2, 80, 100, 50, 50, 10, 0, 10, 20⟩
      ⟨true, 1, "Alice", "Fire", 3, 50, 100, 50, 50, 10, 0, 10, 20⟩ "attack").2.2.winner
      = none := by
    simp [execute_battle_action, apply_action, calculate_damage, Combatant.is_alive]
  refine ⟨?_, ?_, ?_, ?_⟩
  · rw [execute_target_eq]
    simp [apply_action, calculate_damage, toPlayer, c2_p1, c2_p2]
  · simpa [toPlayer, c2_p1, c2_p2] using h3
  all_goals
    simp [handle_pvp_action, update_player_stats, update_battle,
      List.lookup, c2_state, Combatant.is_alive, h1, h3, toPlayer, c2_p1, c2_p2]
